import Mathlib

/-!
Shallow embedding of `src/charm.py` (`KubernetesControlPlaneCharm`), the
reconciliation core of the kubernetes-control-plane charm.

Modelling conventions:
* Relation databags and the legacy leader-data store are association lists
  `List (String × String)`; Python's `.get(key)` followed by a truthiness
  test (`if value:`) is `getTruthy`, which treats both a missing key and an
  empty string as absent, exactly as Python's `if` does.
* `World` is the externally observable state a reconciliation pass reads and
  writes: relation presence flags, certificate material published by the
  certificate authority, etcd readiness, the peer databag, the legacy store,
  leadership, and whether `/root/.kube/config` exists.
* Calls into the external collaborators (`kubernetes_snaps`, `auth_webhook`,
  the certificates and etcd libraries) are recorded as `Effect` values in the
  order the source performs them; their return values (fresh tokens, the
  generated service-account key, the computed in-cluster service addresses)
  are supplied by a `Collab` record of oracles, since they are produced
  outside this repository.
* `status.add(...)` calls are collected in order as a `List Status`.
* `peer_relation.data[self.app]` raises when `get_relation("peer")` returned
  `None`; the two methods that dereference it therefore return `Except Unit`,
  with `.error ()` standing for the uncaught Python exception (no status
  reported, no state touched).
-/

namespace Charm

/-- A (certificate, private key) pair as exposed by
`client_certs_map` / `server_certs_map` of the certificates interface. -/
structure CertPair where
  cert : String
  key : String
deriving DecidableEq, Repr

/-- Client credentials returned by `EtcdReactiveRequires.get_client_credentials`. -/
structure EtcdCreds where
  client_ca : String
  client_cert : String
  client_key : String
deriving DecidableEq, Repr

/-- A string-keyed databag (peer relation data, legacy leader data). -/
abbrev KV := List (String × String)

/-- Lookup in an association list by key (first match wins). -/
def getKV {α : Type} : List (String × α) → String → Option α
  | [], _ => none
  | (k2, v) :: rest, k => if k2 = k then some v else getKV rest k

/-- Set a key in an association list, replacing the first binding if present
and appending otherwise (the update semantics of a Python dict-like bag). -/
def setKV : KV → String → String → KV
  | [], k, v => [(k, v)]
  | (k2, v2) :: rest, k, v =>
    if k2 = k then (k, v) :: rest else (k2, v2) :: setKV rest k v

/-- Python truthiness of an optional string: `None` and `""` are falsy. -/
def truthyOpt : Option String → Option String
  | none => none
  | some s => if s = "" then none else some s

/-- `bag.get(key)` followed by Python's `if value:` test. -/
def getTruthy (m : KV) (k : String) : Option String :=
  truthyOpt (getKV m k)

/-- The externally observable state a reconciliation pass runs against. -/
structure World where
  /-- `self.certificates.relation` is present. -/
  certRelation : Bool
  /-- `self.certificates.ca` (None when the authority has not published one). -/
  ca : Option String
  /-- `self.certificates.client_certs_map`, keyed by client subject name. -/
  clientCerts : List (String × CertPair)
  /-- `self.certificates.server_certs_map`, keyed by common name. -/
  serverCerts : List (String × CertPair)
  /-- `self.etcd.relation` is present. -/
  etcdRelation : Bool
  /-- `self.etcd.is_ready`. -/
  etcdReady : Bool
  /-- `self.etcd.get_client_credentials()`. -/
  etcdCreds : EtcdCreds
  /-- The app databag of `self.model.get_relation("peer")`; `none` when the
  peer relation does not exist. -/
  peerRel : Option KV
  /-- The deprecated `leader_data` store. -/
  legacy : KV
  /-- `self.unit.is_leader()`. -/
  isLeader : Bool
  /-- `os.path.exists("/root/.kube/config")`. -/
  kubeconfigExists : Bool
  /-- `kubernetes_snaps.get_public_address()`. -/
  publicAddress : String
  /-- `kubernetes_snaps.get_node_name()`. -/
  nodeName : String
  /-- `socket.gethostname()`. -/
  hostname : String
  /-- `socket.getfqdn()`. -/
  fqdn : String
  /-- `kubernetes_snaps.get_bind_addresses()`. -/
  bindAddrs : List String
  /-- The exploded ingress addresses of the `kube-control` binding. -/
  ingressAddrs : List String
  /-- `self.unit.name`. -/
  unitName : String
  /-- `self.model.config["channel"]`. -/
  channelCfg : String
  /-- `self.config["dns_domain"]`. -/
  dnsDomainCfg : String
  /-- `self.config["extra_sans"]` (raw, whitespace-separated). -/
  extraSansCfg : String
  /-- `self.config["service-cidr"]` (raw, comma-separated). -/
  serviceCidrCfg : String
deriving DecidableEq, Repr

/-- Oracles for values produced by external collaborators during a pass. -/
structure Collab where
  /-- `auth_webhook.token_generator()`. -/
  tokenGen : String
  /-- `auth_webhook.create_token(uid, username, groups)`. -/
  createToken : String → String → List String → String
  /-- `kubernetes_snaps.create_service_account_key()`. -/
  serviceAccountKey : String
  /-- `kubernetes_snaps.get_kubernetes_service_addresses(cidrs)`. -/
  k8sServiceAddrs : List String → List String

/-- A status reported via `status.add`; `active` is the value shown when a
pass reports nothing. -/
inductive Status where
  | active
  | waiting (reason : String)
  | blocked (reason : String)
deriving DecidableEq, Repr

/-- A call into an external collaborator that changes the machine. -/
inductive Effect where
  | installSnaps (channel : String)
  | configureServicesRestart
  | requestClientCert (subject : String)
  | requestServerCert (cn : String) (sans : List String)
  | writeCerts (ca clientCert clientKey serverCert serverKey : String)
  | writeEtcdCreds (ca cert key : String)
  | writeServiceAccountKey (key : String)
  | configureAuthWebhook
  | configureApiserver
  | createKubeconfig (dest ca server user token : String)
  | configureControllerManager (clusterName : String)
  | configureScheduler
deriving DecidableEq, Repr

/-- The result of one reconciliation step: the state afterwards, the statuses
it reported, and the collaborator calls it made, in order. -/
abbrev StepResult := World × List Status × List Effect

/-- The legacy-store branch shared by `get_cluster_name` (lines 189-194, with
`legacyKey = "cluster_tag"`, `peerKey = "cluster-name"`) and
`write_service_account_key` (lines 269-274, with
`legacyKey = "/root/cdk/serviceaccount.key"`, `peerKey = "service-account-key"`):
if the legacy store holds a truthy value, copy it into the peer databag and
overwrite the legacy entry with `""`; otherwise change nothing. -/
def migrateLegacy (pd : KV) (legacy : KV) (legacyKey peerKey : String) :
    Option String × KV × KV :=
  match getTruthy legacy legacyKey with
  | some v => (some v, setKV pd peerKey v, setKV legacy legacyKey "")
  | none => (none, pd, legacy)

/-- `KubernetesControlPlaneCharm.get_cluster_name` (lines 178-198).
`tok` is the value `auth_webhook.token_generator()` would return. -/
def get_cluster_name (w : World) (tok : String) :
    Except Unit (Option String × World × List Status) :=
  match w.peerRel with
  | none => Except.error ()
  | some pd =>
    match getTruthy pd "cluster-name" with
    | some name => Except.ok (some name, w, [])
    | none =>
      if !w.isLeader then
        Except.ok (none, w, [Status.waiting "Waiting for cluster name from leader"])
      else
        match migrateLegacy pd w.legacy "cluster_tag" "cluster-name" with
        | (some name, pd2, lg2) =>
          Except.ok (some name, { w with peerRel := some pd2, legacy := lg2 }, [])
        | (none, _, _) =>
          let name := "kubernetes-" ++ tok.toLower
          Except.ok (some name, { w with peerRel := some (setKV pd "cluster-name" name) }, [])

/-- `KubernetesControlPlaneCharm.write_service_account_key` (lines 257-277).
`fresh` is the value `kubernetes_snaps.create_service_account_key()` would
return. -/
def write_service_account_key (w : World) (fresh : String) :
    Except Unit StepResult :=
  match w.peerRel with
  | none => Except.error ()
  | some pd =>
    match getTruthy pd "service-account-key" with
    | some key => Except.ok (w, [], [Effect.writeServiceAccountKey key])
    | none =>
      if !w.isLeader then
        Except.ok (w, [Status.waiting "Waiting for key from leader"], [])
      else
        match migrateLegacy pd w.legacy "/root/cdk/serviceaccount.key" "service-account-key" with
        | (some _, pd2, lg2) =>
          Except.ok ({ w with peerRel := some pd2, legacy := lg2 }, [], [])
        | (none, _, _) =>
          Except.ok ({ w with peerRel := some (setKV pd "service-account-key" fresh) }, [], [])

/-- Helper of `pySplitWs`: walk the characters, splitting on runs of
whitespace and discarding empty fields, accumulating the current field in
reverse. -/
def splitWsAux : List Char → List Char → List String
  | [], acc => if acc.isEmpty then [] else [String.mk acc.reverse]
  | c :: cs, acc =>
    if c.isWhitespace then
      if acc.isEmpty then splitWsAux cs []
      else String.mk acc.reverse :: splitWsAux cs []
    else splitWsAux cs (c :: acc)

/-- Python's no-argument `str.split()`: split on runs of whitespace,
discarding empty fields (so `"".split()` is `[]`). -/
def pySplitWs (s : String) : List String :=
  splitWsAux s.data []

/-- Helper of `pySplitOn`: split at every separator, keeping empty fields. -/
def splitSepAux (sep : Char) : List Char → List Char → List String
  | [], acc => [String.mk acc.reverse]
  | c :: cs, acc =>
    if c = sep then String.mk acc.reverse :: splitSepAux sep cs []
    else splitSepAux sep cs (c :: acc)

/-- Python's `str.split(sep)` for a one-character separator: split at every
occurrence, keeping empty fields (so `"".split(",")` is `[""]`). -/
def pySplitOn (s : String) (sep : Char) : List String :=
  splitSepAux sep s.data []

/-- The SAN list built by `request_certificates` (lines 220-252): the fixed
names, then the bind addresses, ingress addresses, in-cluster service
addresses and operator-supplied extra SANs, deduplicated.  Python's
`list(set(sans))` yields the distinct elements in unspecified order; it is
modelled by `List.dedup`, which preserves exactly the properties used here:
membership and the absence of duplicates. -/
def computeSans (w : World) (k8sOf : List String → List String) : List String :=
  let domain := w.dnsDomainCfg
  let extra_sans := pySplitWs w.extraSansCfg
  let k8s_service_addrs := k8sOf (pySplitOn w.serviceCidrCfg (','))
  let sans :=
    [w.publicAddress, "127.0.0.1", w.hostname, w.fqdn, "kubernetes",
      "kubernetes." ++ domain, "kubernetes.default", "kubernetes.default.svc",
      "kubernetes.default.svc." ++ domain]
    ++ w.bindAddrs ++ w.ingressAddrs ++ k8s_service_addrs ++ extra_sans
  sans.dedup

/-- `KubernetesControlPlaneCharm.request_certificates` (lines 214-255). -/
def request_certificates (w : World) (k8sOf : List String → List String) :
    StepResult :=
  if !w.certRelation then
    (w, [Status.blocked "Missing relation to certificate authority"], [])
  else
    (w, [],
      [Effect.requestClientCert "system:kube-apiserver",
        Effect.requestServerCert w.publicAddress (computeSans w k8sOf)])

/-- `KubernetesControlPlaneCharm.write_certificates` (lines 279-296).
`if not ca` treats an empty CA string like a missing one. -/
def write_certificates (w : World) : StepResult :=
  let common_name := w.publicAddress
  match truthyOpt w.ca, getKV w.clientCerts "system:kube-apiserver",
      getKV w.serverCerts common_name with
  | some ca, some client_cert, some server_cert =>
    (w, [],
      [Effect.writeCerts ca client_cert.cert client_cert.key
        server_cert.cert server_cert.key])
  | _, _, _ => (w, [Status.waiting "Waiting for certificates"], [])

/-- `KubernetesControlPlaneCharm.write_etcd_client_credentials` (lines 298-312). -/
def write_etcd_client_credentials (w : World) : StepResult :=
  if !w.etcdRelation then
    (w, [Status.blocked "Missing relation to etcd"], [])
  else if !w.etcdReady then
    (w, [Status.waiting "Waiting for etcd"], [])
  else
    (w, [],
      [Effect.writeEtcdCreds w.etcdCreds.client_ca w.etcdCreds.client_cert
        w.etcdCreds.client_key])

/-- `KubernetesControlPlaneCharm.configure_auth_webhook` (lines 54-61); the
argument plumbing to the external collaborator carries no branch. -/
def configure_auth_webhook (w : World) : StepResult :=
  (w, [], [Effect.configureAuthWebhook])

/-- `KubernetesControlPlaneCharm.configure_apiserver` (lines 33-52). -/
def configure_apiserver (w : World) : StepResult :=
  if !w.etcdReady then
    (w, [Status.waiting "Waiting for etcd"], [])
  else
    (w, [], [Effect.configureApiserver])

/-- The local API endpoint used for every non-public kubeconfig. -/
def localServer : String := "https://127.0.0.1:6443"

/-- The kubeconfig writes of `create_kubeconfigs` that run unconditionally
after the bootstrap branch (lines 112-176), in source order: the admin
config at both admin destinations and at the public endpoint, then the
controller-manager, scheduler, kubelet and proxy configs. -/
def kubeconfigWritesAfterBootstrap (w : World) (c : Collab) (ca : String) :
    List Effect :=
  let public_server := "https://" ++ w.publicAddress ++ ":6443"
  let admin_token := c.createToken "admin" "admin" ["system:masters"]
  [Effect.createKubeconfig "/root/.kube/config" ca localServer "admin" admin_token,
    Effect.createKubeconfig "/home/ubuntu/.kube/config" ca localServer "admin" admin_token,
    Effect.createKubeconfig "/home/ubuntu/config" ca public_server "admin" admin_token,
    Effect.createKubeconfig "/root/cdk/kubecontrollermanagerconfig" ca localServer
      "kube-controller-manager"
      (c.createToken "kube-controller-manager" "system:kube-controller-manager" []),
    Effect.createKubeconfig "/root/cdk/kubeschedulerconfig" ca localServer
      "kube-scheduler"
      (c.createToken "system:kube-scheduler" "system:kube-scheduler" []),
    Effect.createKubeconfig "/root/cdk/kubeconfig" ca localServer "kubelet"
      (c.createToken w.unitName ("system:node:" ++ w.nodeName.toLower) ["system:nodes"]),
    Effect.createKubeconfig "/root/cdk/kubeproxyconfig" ca localServer "kube-proxy"
      (c.createToken "kube-proxy" "system:kube-proxy" [])]

/-- `KubernetesControlPlaneCharm.create_kubeconfigs` (lines 84-176). The
bootstrap branch (lines 100-110) runs only when `/root/.kube/config` does not
exist; after a successful pass the file exists either way. -/
def create_kubeconfigs (w : World) (c : Collab) : StepResult :=
  match truthyOpt w.ca with
  | none => (w, [Status.waiting "Waiting for certificates"], [])
  | some ca =>
    if !w.etcdReady then
      (w, [Status.waiting "Waiting for etcd"], [])
    else
      let bootstrap :=
        if !w.kubeconfigExists then
          [Effect.createKubeconfig "/root/.kube/config" ca localServer "admin" c.tokenGen]
        else []
      ({ w with kubeconfigExists := true }, [],
        bootstrap ++ kubeconfigWritesAfterBootstrap w c ca)

/-- `KubernetesControlPlaneCharm.configure_controller_manager` (lines 63-76);
it calls `get_cluster_name`, whose statuses are reported first. -/
def configure_controller_manager (w : World) (tok : String) :
    Except Unit StepResult :=
  match get_cluster_name w tok with
  | Except.error e => Except.error e
  | Except.ok (none, w2, sts) =>
    Except.ok (w2, sts ++ [Status.waiting "Waiting for cluster name"], [])
  | Except.ok (some name, w2, sts) =>
    Except.ok (w2, sts, [Effect.configureControllerManager name])

/-- `KubernetesControlPlaneCharm.configure_scheduler` (lines 78-82). -/
def configure_scheduler (w : World) : StepResult :=
  (w, [], [Effect.configureScheduler])

/-- `KubernetesControlPlaneCharm.reconcile` (lines 200-212): the fixed step
order, threading the state, concatenating each step's status reports and
collaborator calls in order. -/
def reconcile (w : World) (c : Collab) : Except Unit StepResult :=
  let e0 : List Effect :=
    [Effect.installSnaps w.channelCfg, Effect.configureServicesRestart]
  let r1 := request_certificates w c.k8sServiceAddrs
  let r2 := write_certificates r1.1
  let r3 := write_etcd_client_credentials r2.1
  match write_service_account_key r3.1 c.serviceAccountKey with
  | Except.error e => Except.error e
  | Except.ok r4 =>
    let r5 := configure_auth_webhook r4.1
    let r6 := configure_apiserver r5.1
    let r7 := create_kubeconfigs r6.1 c
    match configure_controller_manager r7.1 c.tokenGen with
    | Except.error e => Except.error e
    | Except.ok r8 =>
      let r9 := configure_scheduler r8.1
      Except.ok (r9.1,
        r1.2.1 ++ r2.2.1 ++ r3.2.1 ++ r4.2.1 ++ r5.2.1 ++ r6.2.1 ++ r7.2.1
          ++ r8.2.1 ++ r9.2.1,
        e0 ++ r1.2.2 ++ r2.2.2 ++ r3.2.2 ++ r4.2.2 ++ r5.2.2 ++ r6.2.2
          ++ r7.2.2 ++ r8.2.2 ++ r9.2.2)

/-- The statuses a pass reported (empty when the pass raised). -/
def statusReports (r : Except Unit StepResult) : List Status :=
  match r with
  | Except.ok x => x.2.1
  | Except.error _ => []

/-- Modelled from the spec: the status surface of `charms.contextual_status`
and `charms.reconciler` (repository code not under `src/`).  Each
`status.add` overwrites the currently visible status, so the last report of
a pass wins, and a pass that reports nothing is Active. -/
def visibleStatus (reports : List Status) : Status :=
  reports.foldl (fun _ r => r) Status.active

/-- Repeated reconciliation passes restricted to `get_cluster_name`, one pass
per fresh token in the list. -/
def iterateClusterName (w : World) : List String → Except Unit World
  | [] => Except.ok w
  | t :: ts =>
    match get_cluster_name w t with
    | Except.error e => Except.error e
    | Except.ok (_, w2, _) => iterateClusterName w2 ts

/-- Setting a key makes it the value found for that key. -/
theorem getKV_setKV_self (m : KV) (k v : String) :
    getKV (setKV m k v) k = some v := by
  induction m with
  | nil => simp [setKV, getKV]
  | cons p rest ih =>
    obtain ⟨k2, v2⟩ := p
    by_cases h : k2 = k
    · simp [setKV, h, getKV]
    · simp [setKV, h, getKV, ih]

/-- A key overwritten with the empty string is falsy. -/
theorem getTruthy_setKV_empty (m : KV) (k : String) :
    getTruthy (setKV m k "") k = none := by
  simp [getTruthy, getKV_setKV_self, truthyOpt]

/-- A concrete world used to instantiate the hypothesised theorems: every
relation present and ready, identity and key already in the peer databag. -/
def baseWorld : World where
  certRelation := true
  ca := some "CA-PEM"
  clientCerts := [("system:kube-apiserver", { cert := "client-cert", key := "client-key" })]
  serverCerts := [("10.0.0.5", { cert := "server-cert", key := "server-key" })]
  etcdRelation := true
  etcdReady := true
  etcdCreds := { client_ca := "etcd-ca", client_cert := "etcd-cert", client_key := "etcd-key" }
  peerRel := some [("cluster-name", "kubernetes-abc"), ("service-account-key", "SAK")]
  legacy := []
  isLeader := true
  kubeconfigExists := true
  publicAddress := "10.0.0.5"
  nodeName := "node1"
  hostname := "host1"
  fqdn := "host1.example"
  bindAddrs := []
  ingressAddrs := []
  unitName := "kubernetes-control-plane/0"
  channelCfg := "1.28/stable"
  dnsDomainCfg := "cluster.local"
  extraSansCfg := ""
  serviceCidrCfg := "10.152.183.0/24"

/-- A concrete collaborator oracle for the same purpose. -/
def baseCollab : Collab where
  tokenGen := "BOOTTOK"
  createToken := fun uid _ _ => "T-" ++ uid
  serviceAccountKey := "FRESHKEY"
  k8sServiceAddrs := fun _ => ["10.152.183.1"]

/-- C1: once the cluster-name field in PeerState is non-empty, every call to
`get_cluster_name` returns that same value, reports nothing, and leaves the
whole state (peer databag and legacy store included) unchanged, whatever the
legacy store holds; hence any sequence of passes leaves the state fixed. -/
theorem cluster_name_stable (w : World) (pd : KV) (v : String)
    (hp : w.peerRel = some pd)
    (hv : getTruthy pd "cluster-name" = some v) :
    (∀ tok, get_cluster_name w tok = Except.ok (some v, w, [])) ∧
    (∀ toks, iterateClusterName w toks = Except.ok w) := by
  have h1 : ∀ tok, get_cluster_name w tok = Except.ok (some v, w, []) := by
    intro tok
    simp [get_cluster_name, hp, hv]
  refine ⟨h1, fun toks => ?_⟩
  induction toks with
  | nil => rfl
  | cons t ts ih =>
    simp only [iterateClusterName, h1 t]
    exact ih

/-- Witness for C1 at a concrete world whose peer databag already holds a
cluster name while the legacy store is arbitrary. -/
theorem cluster_name_stable_witness :
    (∀ tok, get_cluster_name baseWorld tok =
      Except.ok (some "kubernetes-abc", baseWorld, [])) ∧
    (∀ toks, iterateClusterName baseWorld toks = Except.ok baseWorld) :=
  cluster_name_stable baseWorld
    [("cluster-name", "kubernetes-abc"), ("service-account-key", "SAK")]
    "kubernetes-abc" rfl rfl

/-- C2: a non-leader unit with no cluster name in the peer databag gets
`None` from `get_cluster_name`, the state is unchanged (no write to the peer
databag or the legacy store), and the only report is
Waiting("Waiting for cluster name from leader"). -/
theorem cluster_name_nonleader_waits (w : World) (pd : KV) (tok : String)
    (hp : w.peerRel = some pd)
    (hn : getTruthy pd "cluster-name" = none)
    (hl : w.isLeader = false) :
    get_cluster_name w tok =
      Except.ok (none, w, [Status.waiting "Waiting for cluster name from leader"]) := by
  simp [get_cluster_name, hp, hn, hl]

/-- Witness for C2 at a concrete non-leader world with an empty peer databag. -/
theorem cluster_name_nonleader_waits_witness :
    get_cluster_name { baseWorld with isLeader := false, peerRel := some [] } "tok" =
      Except.ok (none, { baseWorld with isLeader := false, peerRel := some [] },
        [Status.waiting "Waiting for cluster name from leader"]) :=
  cluster_name_nonleader_waits
    { baseWorld with isLeader := false, peerRel := some [] } [] "tok" rfl rfl rfl

/-- C3: the legacy-migration branch shared by `get_cluster_name` and
`write_service_account_key` is idempotent: with a truthy legacy value, one
run copies it to the peer key and clears the legacy key; a second run is a
no-op, so the peer databag after two runs equals the databag after one and
the legacy key stays cleared (present with value ""); and with a falsy
legacy value the branch changes neither databag. -/
theorem migration_idempotent (pd lg : KV) (lk pk v : String)
    (hv : getTruthy lg lk = some v) :
    migrateLegacy pd lg lk pk = (some v, setKV pd pk v, setKV lg lk "") ∧
    migrateLegacy (setKV pd pk v) (setKV lg lk "") lk pk
      = (none, setKV pd pk v, setKV lg lk "") ∧
    getKV (setKV lg lk "") lk = some "" ∧
    (∀ pd2 lg2, getTruthy lg2 lk = none →
      migrateLegacy pd2 lg2 lk pk = (none, pd2, lg2)) := by
  refine ⟨?_, ?_, getKV_setKV_self lg lk "", ?_⟩
  · simp [migrateLegacy, hv]
  · simp [migrateLegacy, getTruthy_setKV_empty]
  · intro pd2 lg2 h2
    simp [migrateLegacy, h2]

/-- Witness for C3 at the cluster-name keys with a concrete legacy tag. -/
theorem migration_idempotent_witness :
    migrateLegacy [] [("cluster_tag", "old-name")] "cluster_tag" "cluster-name"
      = (some "old-name", [("cluster-name", "old-name")], [("cluster_tag", "")]) ∧
    migrateLegacy [("cluster-name", "old-name")] [("cluster_tag", "")]
        "cluster_tag" "cluster-name"
      = (none, [("cluster-name", "old-name")], [("cluster_tag", "")]) ∧
    getKV [("cluster_tag", "")] "cluster_tag" = some "" ∧
    (∀ pd2 lg2, getTruthy lg2 "cluster_tag" = none →
      migrateLegacy pd2 lg2 "cluster_tag" "cluster-name" = (none, pd2, lg2)) :=
  migration_idempotent [] [("cluster_tag", "old-name")] "cluster_tag"
    "cluster-name" "old-name" rfl

/-- C10: when `model.get_relation("peer")` yields nothing, both
`get_cluster_name` and `write_service_account_key` dereference it and raise
before reporting any status or touching any state: the run aborts with an
error carrying no status report and no effect. -/
theorem peer_relation_precondition (w : World) (tok fresh : String)
    (hp : w.peerRel = none) :
    get_cluster_name w tok = Except.error () ∧
    write_service_account_key w fresh = Except.error () := by
  constructor <;> simp [get_cluster_name, write_service_account_key, hp]

/-- Witness for C10 at a concrete world without the peer relation. -/
theorem peer_relation_precondition_witness :
    get_cluster_name { baseWorld with peerRel := none } "tok" = Except.error () ∧
    write_service_account_key { baseWorld with peerRel := none } "fresh"
      = Except.error () :=
  peer_relation_precondition { baseWorld with peerRel := none } "tok" "fresh" rfl

/-- Setting a key to a non-empty value makes it truthy with that value. -/
theorem getTruthy_setKV_self (m : KV) (k v : String) (hv : v ≠ "") :
    getTruthy (setKV m k v) k = some v := by
  simp [getTruthy, getKV_setKV_self, truthyOpt, hv]

/-- A truthy lookup never returns the empty string. -/
theorem getTruthy_ne_empty (m : KV) (k v : String) (h : getTruthy m k = some v) :
    v ≠ "" := by
  cases hg : getKV m k with
  | none => simp [getTruthy, truthyOpt, hg] at h
  | some s =>
    by_cases hs : s = ""
    · simp [getTruthy, truthyOpt, hg, hs] at h
    · simp [getTruthy, truthyOpt, hg, hs] at h
      exact h ▸ hs

/-- C5: `write_certificates` performs zero writes and reports
Waiting("Waiting for certificates") whenever the CA, the client certificate
under subject "system:kube-apiserver", or the server certificate under the
public-address common name is absent; when all three are present it performs
exactly one write carrying the full set: CA, client cert, client key, server
cert, server key. -/
theorem write_certificates_gating (w : World) :
    ((truthyOpt w.ca = none ∨
      getKV w.clientCerts "system:kube-apiserver" = none ∨
      getKV w.serverCerts w.publicAddress = none) →
      write_certificates w = (w, [Status.waiting "Waiting for certificates"], [])) ∧
    (∀ ca cc sc, truthyOpt w.ca = some ca →
      getKV w.clientCerts "system:kube-apiserver" = some cc →
      getKV w.serverCerts w.publicAddress = some sc →
      write_certificates w =
        (w, [], [Effect.writeCerts ca cc.cert cc.key sc.cert sc.key])) := by
  constructor
  · intro h
    simp only [write_certificates]
    split
    · rename_i ca cc sc hca hcc hsc
      rcases h with h | h | h <;> simp_all
    · rfl
  · intro ca cc sc hca hcc hsc
    simp [write_certificates, hca, hcc, hsc]

/-- Witness for C5: a world whose CA is absent yields no writes and the
Waiting report; the fully provisioned world yields exactly the full write. -/
theorem write_certificates_gating_witness :
    write_certificates { baseWorld with ca := none } =
      ({ baseWorld with ca := none }, [Status.waiting "Waiting for certificates"], []) ∧
    write_certificates baseWorld =
      (baseWorld, [],
        [Effect.writeCerts "CA-PEM" "client-cert" "client-key" "server-cert" "server-key"]) :=
  ⟨(write_certificates_gating { baseWorld with ca := none }).1 (Or.inl rfl),
    (write_certificates_gating baseWorld).2 "CA-PEM"
      { cert := "client-cert", key := "client-key" }
      { cert := "server-cert", key := "server-key" } rfl rfl rfl⟩

/-- C6: `write_etcd_client_credentials` reports Blocked when no etcd relation
exists, reports Waiting when the relation exists but its data is not ready,
and in both error cases performs no writes; when the relation exists and is
ready it performs exactly the write of the CA, client certificate and client
key. -/
theorem etcd_credential_tiers (w : World) :
    (w.etcdRelation = false →
      write_etcd_client_credentials w =
        (w, [Status.blocked "Missing relation to etcd"], [])) ∧
    (w.etcdRelation = true → w.etcdReady = false →
      write_etcd_client_credentials w =
        (w, [Status.waiting "Waiting for etcd"], [])) ∧
    (w.etcdRelation = true → w.etcdReady = true →
      write_etcd_client_credentials w =
        (w, [],
          [Effect.writeEtcdCreds w.etcdCreds.client_ca w.etcdCreds.client_cert
            w.etcdCreds.client_key])) := by
  refine ⟨fun h1 => ?_, fun h1 h2 => ?_, fun h1 h2 => ?_⟩
  · simp [write_etcd_client_credentials, h1]
  · simp [write_etcd_client_credentials, h1, h2]
  · simp [write_etcd_client_credentials, h1, h2]

/-- Witness for C6 at the three concrete etcd configurations. -/
theorem etcd_credential_tiers_witness :
    write_etcd_client_credentials { baseWorld with etcdRelation := false } =
      ({ baseWorld with etcdRelation := false },
        [Status.blocked "Missing relation to etcd"], []) ∧
    write_etcd_client_credentials { baseWorld with etcdReady := false } =
      ({ baseWorld with etcdReady := false },
        [Status.waiting "Waiting for etcd"], []) ∧
    write_etcd_client_credentials baseWorld =
      (baseWorld, [], [Effect.writeEtcdCreds "etcd-ca" "etcd-cert" "etcd-key"]) :=
  ⟨(etcd_credential_tiers { baseWorld with etcdRelation := false }).1 rfl,
    ((etcd_credential_tiers { baseWorld with etcdReady := false }).2).1 rfl rfl,
    ((etcd_credential_tiers baseWorld).2).2 rfl rfl⟩

/-- Counterexample to C7: on a leader with no key in the peer databag and an
empty legacy store, `write_service_account_key` freshly generates the key —
the resulting databag holds it, so the key is known in this pass — yet the
pass performs zero collaborator calls: the key file is not written in the
generating pass, contradicting the claim that the key is persisted in every
pass in which it is known. -/
theorem sa_key_not_written_when_generated :
    write_service_account_key { baseWorld with peerRel := some [] } "KEY" =
      Except.ok ({ baseWorld with peerRel := some [("service-account-key", "KEY")] },
        [], []) ∧
    getTruthy [("service-account-key", "KEY")] "service-account-key" = some "KEY" := by
  constructor <;> rfl

/-- C7 (amended): `write_service_account_key` persists the key to the local
trust store exactly in passes where the key is already present in the peer
databag at the start of the pass, on every unit; in a pass that migrates the
key from the legacy store or freshly generates it, the key is only recorded
in the peer databag and not written, so the write happens from the next pass
onward. -/
theorem sa_key_write_amended (w : World) (pd : KV) (fresh : String)
    (hp : w.peerRel = some pd) (hfresh : fresh ≠ "") :
    (∀ k, getTruthy pd "service-account-key" = some k →
      write_service_account_key w fresh =
        Except.ok (w, [], [Effect.writeServiceAccountKey k])) ∧
    (getTruthy pd "service-account-key" = none → w.isLeader = true →
      getTruthy w.legacy "/root/cdk/serviceaccount.key" = none →
      ∀ fresh2,
        write_service_account_key w fresh =
          Except.ok ({ w with peerRel := some (setKV pd "service-account-key" fresh) },
            [], []) ∧
        write_service_account_key
            { w with peerRel := some (setKV pd "service-account-key" fresh) } fresh2 =
          Except.ok ({ w with peerRel := some (setKV pd "service-account-key" fresh) },
            [], [Effect.writeServiceAccountKey fresh])) ∧
    (∀ v, getTruthy pd "service-account-key" = none → w.isLeader = true →
      getTruthy w.legacy "/root/cdk/serviceaccount.key" = some v →
      ∀ fresh2,
        write_service_account_key w fresh =
          Except.ok ({ w with peerRel := some (setKV pd "service-account-key" v),
                              legacy := setKV w.legacy "/root/cdk/serviceaccount.key" "" },
            [], []) ∧
        write_service_account_key
            { w with peerRel := some (setKV pd "service-account-key" v),
                     legacy := setKV w.legacy "/root/cdk/serviceaccount.key" "" } fresh2 =
          Except.ok ({ w with peerRel := some (setKV pd "service-account-key" v),
                              legacy := setKV w.legacy "/root/cdk/serviceaccount.key" "" },
            [], [Effect.writeServiceAccountKey v])) := by
  refine ⟨fun k hk => ?_, fun hn hl hlg fresh2 => ⟨?_, ?_⟩, fun v hn hl hlg fresh2 => ⟨?_, ?_⟩⟩
  · simp [write_service_account_key, hp, hk]
  · simp [write_service_account_key, hp, hn, hl, migrateLegacy, hlg]
  · simp [write_service_account_key, getTruthy_setKV_self pd "service-account-key" fresh hfresh]
  · simp [write_service_account_key, hp, hn, hl, migrateLegacy, hlg]
  · have hv : v ≠ "" := getTruthy_ne_empty w.legacy "/root/cdk/serviceaccount.key" v hlg
    simp [write_service_account_key, getTruthy_setKV_self pd "service-account-key" v hv]

/-- Witness for C7 (amended): on a concrete leader world the generating pass
records the key without writing it, and the following pass writes it. -/
theorem sa_key_write_amended_witness :
    write_service_account_key { baseWorld with peerRel := some [] } "KEY2" =
      Except.ok ({ baseWorld with peerRel := some [("service-account-key", "KEY2")] },
        [], []) ∧
    write_service_account_key
        { baseWorld with peerRel := some [("service-account-key", "KEY2")] } "X" =
      Except.ok ({ baseWorld with peerRel := some [("service-account-key", "KEY2")] },
        [], [Effect.writeServiceAccountKey "KEY2"]) :=
  ((sa_key_write_amended { baseWorld with peerRel := some [] } [] "KEY2" rfl
    (by decide)).2).1 rfl rfl rfl "X"

/-- C8: under a present CA and ready etcd, the bootstrap write of
`create_kubeconfigs` to /root/.kube/config with a freshly generated token is
the first effect exactly when the file does not yet exist and is absent when
it does, while the admin kubeconfig writes carrying the freshly minted admin
token — including the one to /root/.kube/config — occur in every successful
pass. -/
theorem bootstrap_once (w : World) (c : Collab) (ca : String)
    (hca : truthyOpt w.ca = some ca) (he : w.etcdReady = true) :
    (w.kubeconfigExists = false →
      create_kubeconfigs w c =
        ({ w with kubeconfigExists := true }, [],
          Effect.createKubeconfig "/root/.kube/config" ca localServer "admin" c.tokenGen
            :: kubeconfigWritesAfterBootstrap w c ca)) ∧
    (w.kubeconfigExists = true →
      create_kubeconfigs w c =
        ({ w with kubeconfigExists := true }, [],
          kubeconfigWritesAfterBootstrap w c ca)) ∧
    Effect.createKubeconfig "/root/.kube/config" ca localServer "admin"
        (c.createToken "admin" "admin" ["system:masters"])
      ∈ (create_kubeconfigs w c).2.2 ∧
    Effect.createKubeconfig "/home/ubuntu/.kube/config" ca localServer "admin"
        (c.createToken "admin" "admin" ["system:masters"])
      ∈ (create_kubeconfigs w c).2.2 := by
  refine ⟨fun hex => ?_, fun hex => ?_, ?_, ?_⟩
  · simp [create_kubeconfigs, hca, he, hex]
  · simp [create_kubeconfigs, hca, he, hex]
  · cases hex : w.kubeconfigExists <;>
      simp [create_kubeconfigs, kubeconfigWritesAfterBootstrap, hca, he, hex]
  · cases hex : w.kubeconfigExists <;>
      simp [create_kubeconfigs, kubeconfigWritesAfterBootstrap, hca, he, hex]

/-- Witness for C8: with the file absent the bootstrap write leads the
effect list; with it present the pass starts directly with the admin
writes. -/
theorem bootstrap_once_witness :
    create_kubeconfigs { baseWorld with kubeconfigExists := false } baseCollab =
      ({ baseWorld with kubeconfigExists := true }, [],
        Effect.createKubeconfig "/root/.kube/config" "CA-PEM" localServer "admin" "BOOTTOK"
          :: kubeconfigWritesAfterBootstrap
              { baseWorld with kubeconfigExists := false } baseCollab "CA-PEM") ∧
    create_kubeconfigs baseWorld baseCollab =
      (baseWorld, [], kubeconfigWritesAfterBootstrap baseWorld baseCollab "CA-PEM") :=
  ⟨(bootstrap_once { baseWorld with kubeconfigExists := false } baseCollab "CA-PEM"
      rfl rfl).1 rfl,
    ((bootstrap_once baseWorld baseCollab "CA-PEM" rfl rfl).2).1 rfl⟩

/-- C4: with service CIDRs ["10.152.183.0/24"], extra SANs ["foo.example"]
and DNS domain "cluster.local", `request_certificates` submits the client
request and a server request whose SAN list contains the public address,
"127.0.0.1", "kubernetes", "kubernetes.cluster.local",
"kubernetes.default.svc.cluster.local", the cluster service IP
"10.152.183.1" and "foo.example", contains no element twice, and its
membership is unchanged under any reordering of the input address lists. -/
theorem san_completeness_dedup (w : World) (k8sOf : List String → List String)
    (hd : w.dnsDomainCfg = "cluster.local")
    (he : w.extraSansCfg = "foo.example")
    (hs : w.serviceCidrCfg = "10.152.183.0/24")
    (hk : k8sOf ["10.152.183.0/24"] = ["10.152.183.1"])
    (hc : w.certRelation = true) :
    request_certificates w k8sOf =
      (w, [],
        [Effect.requestClientCert "system:kube-apiserver",
          Effect.requestServerCert w.publicAddress (computeSans w k8sOf)]) ∧
    w.publicAddress ∈ computeSans w k8sOf ∧
    "127.0.0.1" ∈ computeSans w k8sOf ∧
    "kubernetes" ∈ computeSans w k8sOf ∧
    "kubernetes.cluster.local" ∈ computeSans w k8sOf ∧
    "kubernetes.default.svc.cluster.local" ∈ computeSans w k8sOf ∧
    "10.152.183.1" ∈ computeSans w k8sOf ∧
    "foo.example" ∈ computeSans w k8sOf ∧
    (computeSans w k8sOf).Nodup ∧
    (∀ b i, w.bindAddrs.Perm b → w.ingressAddrs.Perm i →
      ∀ x, x ∈ computeSans { w with bindAddrs := b, ingressAddrs := i } k8sOf ↔
        x ∈ computeSans w k8sOf) := by
  have happ1 : "kubernetes." ++ "cluster.local" = "kubernetes.cluster.local" := rfl
  have happ2 : "kubernetes.default.svc." ++ "cluster.local"
      = "kubernetes.default.svc.cluster.local" := rfl
  have hsplit : pySplitWs "foo.example" = ["foo.example"] := by decide
  have hcidr : pySplitOn "10.152.183.0/24" (',') = ["10.152.183.0/24"] := by decide
  have hsans : computeSans w k8sOf =
      ([w.publicAddress, "127.0.0.1", w.hostname, w.fqdn, "kubernetes",
        "kubernetes.cluster.local", "kubernetes.default", "kubernetes.default.svc",
        "kubernetes.default.svc.cluster.local"]
        ++ w.bindAddrs ++ w.ingressAddrs ++ ["10.152.183.1"] ++ ["foo.example"]).dedup := by
    simp only [computeSans, hd, he, hs, hsplit, hcidr, hk, happ1, happ2]
  have hsans2 : ∀ b i,
      computeSans { w with bindAddrs := b, ingressAddrs := i } k8sOf =
        ([w.publicAddress, "127.0.0.1", w.hostname, w.fqdn, "kubernetes",
          "kubernetes.cluster.local", "kubernetes.default", "kubernetes.default.svc",
          "kubernetes.default.svc.cluster.local"]
          ++ b ++ i ++ ["10.152.183.1"] ++ ["foo.example"]).dedup := by
    intro b i
    simp only [computeSans, hd, he, hs, hsplit, hcidr, hk, happ1, happ2]
  refine ⟨?_, ?_, ?_, ?_, ?_, ?_, ?_, ?_, ?_, ?_⟩
  · simp [request_certificates, hc]
  · simp [hsans, List.mem_dedup]
  · simp [hsans, List.mem_dedup]
  · simp [hsans, List.mem_dedup]
  · simp [hsans, List.mem_dedup]
  · simp [hsans, List.mem_dedup]
  · simp [hsans, List.mem_dedup]
  · simp [hsans, List.mem_dedup]
  · rw [hsans]
    exact List.nodup_dedup _
  · intro b i hb hi x
    rw [hsans, hsans2 b i]
    simp [List.mem_dedup, List.mem_append, hb.mem_iff, hi.mem_iff]

/-- A world configured exactly as in the SAN test scenario. -/
def sanWorld : World := { baseWorld with extraSansCfg := "foo.example" }

/-- Witness for C4 at the concrete scenario world and service-address map. -/
theorem san_completeness_dedup_witness :
    request_certificates sanWorld baseCollab.k8sServiceAddrs =
      (sanWorld, [],
        [Effect.requestClientCert "system:kube-apiserver",
          Effect.requestServerCert "10.0.0.5"
            (computeSans sanWorld baseCollab.k8sServiceAddrs)]) ∧
    "10.0.0.5" ∈ computeSans sanWorld baseCollab.k8sServiceAddrs ∧
    "127.0.0.1" ∈ computeSans sanWorld baseCollab.k8sServiceAddrs ∧
    "kubernetes" ∈ computeSans sanWorld baseCollab.k8sServiceAddrs ∧
    "kubernetes.cluster.local" ∈ computeSans sanWorld baseCollab.k8sServiceAddrs ∧
    "kubernetes.default.svc.cluster.local"
      ∈ computeSans sanWorld baseCollab.k8sServiceAddrs ∧
    "10.152.183.1" ∈ computeSans sanWorld baseCollab.k8sServiceAddrs ∧
    "foo.example" ∈ computeSans sanWorld baseCollab.k8sServiceAddrs ∧
    (computeSans sanWorld baseCollab.k8sServiceAddrs).Nodup ∧
    (∀ b i, sanWorld.bindAddrs.Perm b → sanWorld.ingressAddrs.Perm i →
      ∀ x, x ∈ computeSans { sanWorld with bindAddrs := b, ingressAddrs := i }
          baseCollab.k8sServiceAddrs ↔
        x ∈ computeSans sanWorld baseCollab.k8sServiceAddrs) :=
  san_completeness_dedup sanWorld baseCollab.k8sServiceAddrs rfl rfl rfl rfl rfl

/-- The C9 scenario: the certificate-authority relation is missing (and with
it the CA), while etcd, the cluster identity and the service-account key are
all in place. -/
def statusWorld : World := { baseWorld with certRelation := false, ca := none }

/-- C9: the visible status is the last one reported in the pass — for every
report list, appending a report makes it the visible status — and in the
scenario pass the early Blocked("Missing relation to certificate authority")
from `request_certificates` is reported but does not survive: later steps
report Waiting("Waiting for certificates") and the pass ends with that
status visible. -/
theorem status_last_writer_wins :
    (∀ (rs : List Status) (r : Status), visibleStatus (rs ++ [r]) = r) ∧
    statusReports (reconcile statusWorld baseCollab) =
      [Status.blocked "Missing relation to certificate authority",
        Status.waiting "Waiting for certificates",
        Status.waiting "Waiting for certificates"] ∧
    visibleStatus (statusReports (reconcile statusWorld baseCollab)) =
      Status.waiting "Waiting for certificates" := by
  refine ⟨?_, rfl, rfl⟩
  intro rs r
  simp [visibleStatus, List.foldl_append]

end Charm
